import Mathlib

/-!
# Verification of the KYC identity-verification frontend

Shallow embedding of the client-side verification orchestrator of the
KYC_Agent repository, centred on
`Frontend/src/components/FaceDetection/FaceDetection.tsx` (the
`FaceVerification` component), the `KYCAgent` chat flow, and the
`KYCForm` prefill merge.  Stateful React component logic is embedded as
explicit state-passing functions; network calls are reified as values
emitted by each handler, with the network response passed in as an
explicit parameter.
-/

namespace KYC

/-- JavaScript truthiness-based `a || b` on an optional string: an
absent value and the empty string are falsy and fall through to `b`.
Embeds expressions such as `kycData.date_of_birth || kycData.dob`. -/
def jsOrOpt : Option String → Option String → Option String
  | none, b => b
  | some s, b => if s = "" then b else some s

/-- JavaScript `a || b` where `a` is an optional string and `b` a plain
string, as in `prefillData.dateOfBirth || prev.personalInfo.dateOfBirth`. -/
def jsOrStr (a : Option String) (b : String) : String :=
  match a with
  | none => b
  | some s => if s = "" then b else s

/-- JavaScript `String.prototype.includes`: substring containment,
embedded as list-infix on the character data. -/
def jsIncludes (s pat : String) : Bool :=
  decide (List.IsInfix pat.data s.data)

/-- JavaScript `String.prototype.startsWith`, embedded as list-prefix
on the character data (used for the `image/` MIME check). -/
def jsStartsWith (s pre : String) : Bool :=
  decide (pre.data <+: s.data)

/-- Lower-casing of one character on the ASCII range, the fragment of
JavaScript `toLowerCase()` exercised by the gender strings. -/
def jsCharLower (c : Char) : Char :=
  if 'A' ≤ c && c ≤ 'Z' then Char.ofNat (c.toNat + 32) else c

/-- JavaScript `String.prototype.toLowerCase` (ASCII range). -/
def jsToLower (s : String) : String := ⟨s.data.map jsCharLower⟩

/-- The `name` field of the raw KYC extraction payload
(`kycData.name` in `prefillFormWithKYCData`) "could be array or
string", or absent. -/
inductive JName where
  | absent
  | str (s : String)
  | arr (l : List String)
deriving DecidableEq, Repr

/-- `Array.isArray(kycData.name) ? kycData.name : kycData.name ?
[kycData.name] : []` (FaceDetection.tsx lines 130-131): an array is kept,
a truthy string becomes a singleton list, anything falsy becomes `[]`. -/
def normalizeName : JName → List String
  | .arr l => l
  | .str s => if s = "" then [] else [s]
  | .absent => []

/-- Gender normalization from `prefillFormWithKYCData`
(FaceDetection.tsx lines 134-136):
`kycData.gender ? (kycData.gender.toLowerCase().includes('male') ?
'Male' : kycData.gender.toLowerCase().includes('female') ? 'Female' :
kycData.gender) : null`. -/
def normalizeGender : Option String → Option String
  | none => none
  | some s =>
      if s = "" then none
      else if jsIncludes (jsToLower s) "male" then some "Male"
      else if jsIncludes (jsToLower s) "female" then some "Female"
      else some s

/-- Raw KYC extraction payload as read by `prefillFormWithKYCData`
(FaceDetection.tsx lines 123-157).  Absent JSON fields are `none`. -/
structure KycData where
  name : JName
  gender : Option String
  date_of_birth : Option String
  dob : Option String
  mobile_number : Option String
  phone : Option String
  mobile : Option String
  aadhaar_number : Option String
  aadhaar : Option String
  uid : Option String
  address : Option String
  pan_number : Option String
  pan : Option String
deriving DecidableEq, Repr

/-- The mapped form-prefill record built by `prefillFormWithKYCData`
and handed to the `prefillData` callback. -/
structure FormPrefill where
  name : List String
  gender : Option String
  dateOfBirth : Option String
  mobileNumber : Option String
  aadhaarNumber : Option String
  address : Option String
  panNumber : Option String
deriving DecidableEq, Repr

/-- `prefillFormWithKYCData` (FaceDetection.tsx lines 123-157): maps the
raw extraction payload to form fields, normalizing name and gender and
coalescing the alternative source keys with JavaScript `||`. -/
def prefillFormWithKYCData (k : KycData) : FormPrefill :=
  { name := normalizeName k.name
    gender := normalizeGender k.gender
    dateOfBirth := jsOrOpt k.date_of_birth (jsOrOpt k.dob none)
    mobileNumber := jsOrOpt k.mobile_number (jsOrOpt k.phone (jsOrOpt k.mobile none))
    aadhaarNumber := jsOrOpt k.aadhaar_number (jsOrOpt k.aadhaar (jsOrOpt k.uid none))
    address := jsOrOpt k.address none
    panNumber := jsOrOpt k.pan_number (jsOrOpt k.pan none) }

/-- Status messages set with `notify` / rendered state, as an enum
(the source stores them as display strings). -/
inductive Msg where
  | empty
  | cameraStarted
  | faceDetectedMsg
  | faceLostMsg
  | livenessConfirmed
  | collectingFrames (n : Nat)
  | keepFaceInView
  | uploadNotImage
  | uploadTooLarge
  | extractingKyc
  | extractSuccess
  | extractWarnFailed
  | uploadDocFirst
  | waitForLiveness
  | verifyingMatch
  | verifiedSuccess
  | noMatch (hasDistance : Bool)
  | errAuthFailed
  | errServer (status : Nat)
  | errGeneric
deriving DecidableEq, Repr

/-- A lead record as displayed by the component (always empty in the
KYC flow: `extractLeadsData` returns `[]` on every path). -/
structure Lead where
  name : Option String
deriving DecidableEq, Repr

/-- An uploaded file as seen by the handlers: MIME type, byte size,
name. -/
structure JFile where
  ftype : String
  size : Nat
  fname : String
deriving DecidableEq, Repr

/-- Network requests the component can issue, with the payload fields
the claims are about. -/
inductive NetCall where
  /-- `POST /extract-kyc-data` with optional bearer token. -/
  | extractKyc (auth : Option String)
  /-- `POST /liveness-webcam` carrying the `user_id` form field. -/
  | livenessFrame (userId : String)
  /-- `POST /verify` (face match) with optional bearer token. -/
  | verifyMatch (auth : Option String)
deriving DecidableEq, Repr

/-- Ambient context of the component: whether the video element /
canvas / blob capture pipeline is available, the stored auth token,
and the identity data that distinguishes sessions and users (available
to the component via `useAuth` and its own props, and notably unused
by the liveness submission). -/
structure Ctx where
  videoAvailable : Bool
  authToken : Option String
  authUserId : String
  sessionId : Nat
deriving DecidableEq, Repr

/-- The `useState` cells of the `FaceVerification` component. -/
structure VState where
  cameraActive : Bool
  faceDetected : Bool
  liveDetected : Bool
  documentFile : Option JFile
  loading : Bool
  extractingData : Bool
  statusMsg : Msg
  livenessDone : Bool
  extractedLeads : List Lead
  verificationAttempted : Bool
  selectedLeadIndex : Nat
deriving DecidableEq, Repr

/-- Initial component state (the `useState` initial values). -/
def initialVState : VState :=
  { cameraActive := false, faceDetected := false, liveDetected := false
    documentFile := none, loading := false, extractingData := false
    statusMsg := .empty, livenessDone := false, extractedLeads := []
    verificationAttempted := false, selectedLeadIndex := 0 }

/-- The verification-relevant component state: every `useState` cell
except the display-only status message. -/
structure VCore where
  cameraActive : Bool
  faceDetected : Bool
  liveDetected : Bool
  documentFile : Option JFile
  loading : Bool
  extractingData : Bool
  livenessDone : Bool
  extractedLeads : List Lead
  verificationAttempted : Bool
  selectedLeadIndex : Nat
deriving DecidableEq, Repr

/-- Projection dropping the status message. -/
def vcore (s : VState) : VCore :=
  { cameraActive := s.cameraActive, faceDetected := s.faceDetected
    liveDetected := s.liveDetected, documentFile := s.documentFile
    loading := s.loading, extractingData := s.extractingData
    livenessDone := s.livenessDone, extractedLeads := s.extractedLeads
    verificationAttempted := s.verificationAttempted
    selectedLeadIndex := s.selectedLeadIndex }

/-- One response of the remote liveness service to a submitted frame
(`data` in `sendLivenessFrame`), or a failed round trip. -/
inductive LivenessResponse where
  /-- `data.live` truthy. -/
  | live
  /-- `data.reason === "collecting_frames"` with `frames_collected`. -/
  | collecting (framesCollected : Nat)
  /-- `data.reason === "No face detected"`. -/
  | noFace
  /-- 2xx response matching none of the known shapes. -/
  | otherOk
  /-- `!res.ok`: thrown and caught inside `sendLivenessFrame`. -/
  | httpError
  /-- `fetch` rejected (network failure): caught inside. -/
  | transportError
deriving DecidableEq, Repr

/-- `sendLivenessFrame` (FaceDetection.tsx lines 285-332).  Guard:
`if (!videoRef.current || livenessDone) return;`.  Otherwise one frame
is posted to `/liveness-webcam` with the fixed form field
`user_id = "user123"` (lines 302-304), and the response is folded into
the state; every error path is swallowed by the `catch` (line 328). -/
def sendLivenessFrame (ctx : Ctx) (s : VState) (resp : LivenessResponse) :
    VState × List NetCall :=
  if !ctx.videoAvailable || s.livenessDone then (s, [])
  else
    let calls := [NetCall.livenessFrame "user123"]
    match resp with
    | .live =>
        ({s with liveDetected := true, livenessDone := true,
                 statusMsg := .livenessConfirmed}, calls)
    | .collecting n =>
        (if n % 5 = 0 then {s with statusMsg := .collectingFrames n} else s, calls)
    | .noFace => ({s with statusMsg := .keepFaceInView}, calls)
    | .otherOk => (s, calls)
    | .httpError => (s, calls)
    | .transportError => (s, calls)

/-- One firing of the 500 ms `livenessInterval` (FaceDetection.tsx
lines 266-270): `sendLivenessFrame` runs only while
`faceDetected && !livenessDone && cameraActive`. -/
def livenessTick (ctx : Ctx) (s : VState) (resp : LivenessResponse) :
    VState × List NetCall :=
  if s.faceDetected && !s.livenessDone && s.cameraActive then
    sendLivenessFrame ctx s resp
  else (s, [])

/-- Run the liveness timer over a sequence of per-tick service
responses, returning the final state and the total number of liveness
submissions made. -/
def runLiveness (ctx : Ctx) (s : VState) : List LivenessResponse → VState × Nat
  | [] => (s, 0)
  | r :: rest =>
      let out := livenessTick ctx s r
      let tail := runLiveness ctx out.1 rest
      (tail.1, out.2.length + tail.2)

/-- Outcome of the `/verify` round trip in `handleVerify`. -/
inductive MatchResult where
  /-- `fetch` rejected / other pre-parse error. -/
  | transportError
  /-- `res.status === 401`. -/
  | auth401
  /-- `!res.ok` with some other status. -/
  | httpError (status : Nat)
  /-- 2xx with `data.verified` and whether `data.distance` is a number. -/
  | ok (verified : Bool) (hasDistance : Bool)
deriving DecidableEq, Repr

/-- Result of one invocation of `handleVerify`: successor state,
emitted network calls, and the argument of the `onVerified` callback,
if invoked. -/
structure VerifyOut where
  state : VState
  calls : List NetCall
  onVerified : Option Bool
deriving DecidableEq, Repr

/-- `handleVerify` (FaceDetection.tsx lines 362-447).  Guards: missing
document (line 363) and `!liveDetected` (line 368) return before any
state change or network call; otherwise loading/attempt flags are set,
the selfie and document are posted to `/verify` with the stored bearer
token, and the response (or error) is surfaced, with `setLoading(false)`
in the `finally`. -/
def handleVerify (ctx : Ctx) (s : VState) (resp : MatchResult) : VerifyOut :=
  if s.documentFile.isNone then
    ⟨{s with statusMsg := .uploadDocFirst}, [], none⟩
  else if !s.liveDetected then
    ⟨{s with statusMsg := .waitForLiveness}, [], none⟩
  else
    let s1 := {s with loading := true, verificationAttempted := true,
                      statusMsg := .verifyingMatch}
    if !ctx.videoAvailable then
      ⟨{s1 with loading := false, statusMsg := .errGeneric}, [], some false⟩
    else
      let calls := [NetCall.verifyMatch ctx.authToken]
      match resp with
      | .auth401 =>
          ⟨{s1 with loading := false, statusMsg := .errAuthFailed}, calls, some false⟩
      | .httpError n =>
          ⟨{s1 with loading := false, statusMsg := .errServer n}, calls, some false⟩
      | .transportError =>
          ⟨{s1 with loading := false, statusMsg := .errGeneric}, calls, some false⟩
      | .ok true _ =>
          ⟨{s1 with loading := false, statusMsg := .verifiedSuccess}, calls, some true⟩
      | .ok false hd =>
          ⟨{s1 with loading := false, statusMsg := .noMatch hd}, calls, some false⟩

/-! ## Camera acquisition (`handleStartCamera`, lines 167-198) -/

/-- Reasons `getUserMedia` can reject with. -/
inductive CamErr where
  | permissionDenied
  | deviceUnavailable
  | otherErr
deriving DecidableEq, Repr

/-- Camera-side state: the video element's `srcObject` and the set of
stream handles whose tracks have not been stopped. -/
structure CamState where
  srcObject : Option Nat
  liveHandles : List Nat
deriving DecidableEq, Repr

/-- Idle camera: no stream attached, no live handle. -/
def idleCam : CamState := { srcObject := none, liveHandles := [] }

/-- Observable camera actions of one `handleStartCamera` run, in
program order. -/
inductive CamAct where
  /-- `oldStream.getTracks().forEach(track => track.stop())`. -/
  | stoppedTracks (h : Nat)
  /-- `navigator.mediaDevices.getUserMedia` resolved with a stream. -/
  | acquired (h : Nat)
deriving DecidableEq, Repr

/-- Effect of one camera action on the set of live handles. -/
def applyCamAct (hs : List Nat) : CamAct → List Nat
  | .stoppedTracks h => hs.erase h
  | .acquired h => hs ++ [h]

/-- Live handles after a sequence of camera actions. -/
def liveAfter (hs : List Nat) (acts : List CamAct) : List Nat :=
  acts.foldl applyCamAct hs

/-- Result of one `handleStartCamera` invocation. -/
structure StartOut where
  cam : CamState
  state : VState
  /-- `alert` in the `catch` block, with the rejection reason. -/
  alerted : Option CamErr
  trace : List CamAct
deriving DecidableEq, Repr

/-- `handleStartCamera` (FaceDetection.tsx lines 167-198).  If a stream
is already attached, its tracks are stopped and `srcObject` nulled
first (lines 169-173); then `getUserMedia` is awaited.  On rejection
only the `catch` runs (`alert`, line 196) and no component state
changes; on success the stream is attached and
`cameraActive := true`, `liveDetected := false`, `livenessDone := false`
(lines 190-192). -/
def handleStartCamera (cam : CamState) (s : VState) (acq : Except CamErr Nat) :
    StartOut :=
  let cleaned :=
    match cam.srcObject with
    | some h =>
        (CamState.mk none (cam.liveHandles.erase h), [CamAct.stoppedTracks h])
    | none => (cam, [])
  match acq with
  | .error e =>
      { cam := cleaned.1, state := s, alerted := some e, trace := cleaned.2 }
  | .ok h =>
      { cam := { srcObject := some h, liveHandles := cleaned.1.liveHandles ++ [h] }
        state := {s with cameraActive := true, liveDetected := false,
                         livenessDone := false, statusMsg := .cameraStarted}
        alerted := none
        trace := cleaned.2 ++ [CamAct.acquired h] }

/-- Background tasks started by the face-detection `useEffect`
(FaceDetection.tsx lines 201-282). -/
inductive BgTask where
  /-- The MediaPipe camera / `faceDetection.onResults` loop. -/
  | presenceLoop
  /-- The 500 ms `livenessInterval` timer. -/
  | livenessTimer
deriving DecidableEq, Repr

/-- The face-detection `useEffect` body: `if (!cameraActive) return;`
(line 202), else it starts the detection loop and the liveness timer. -/
def faceDetectionSetup (s : VState) : List BgTask :=
  if !s.cameraActive then [] else [.presenceLoop, .livenessTimer]

/-! ## Presence debouncing (`faceDetection.onResults`, lines 228-251) -/

/-- Presence transition events surfaced to the component (the
`setFaceDetected` + `notify` pairs). -/
inductive PresenceEvent where
  | appeared
  | lost
deriving DecidableEq, Repr

/-- Core of the `onResults` callback for one frame result
(`results.detections?.length > 0` abstracted to a boolean): an event is
emitted only when the new result differs from the current
`faceDetected` flag (lines 229-232 and 247-250). -/
def onResultsPresence (faceDetected : Bool) (hasDetections : Bool) :
    Bool × List PresenceEvent :=
  if hasDetections then
    if !faceDetected then (true, [.appeared]) else (true, [])
  else
    if faceDetected then (false, [.lost]) else (false, [])

/-- Feed a sequence of per-frame detection results through the
callback, collecting all emitted transition events. -/
def processFrames (fd : Bool) : List Bool → Bool × List PresenceEvent
  | [] => (fd, [])
  | b :: rest =>
      let step := onResultsPresence fd b
      let tail := processFrames step.1 rest
      (tail.1, step.2 ++ tail.2)

/-- Specification-side count of actual presence changes in a result
sequence, starting from state `fd`. -/
def transitionCount (fd : Bool) : List Bool → Nat
  | [] => 0
  | b :: rest => (if b ≠ fd then 1 else 0) + transitionCount b rest

/-! ## Document upload and extraction (lines 77-120 and 335-359) -/

/-- Outcome of the `/extract-kyc-data` round trip. -/
inductive ExtractResponse where
  /-- 2xx, `success: true` and `kyc_data` present. -/
  | okSuccess (kyc : KycData)
  /-- 2xx but `success` falsy or `kyc_data` missing. -/
  | okFailure
  /-- non-2xx response. -/
  | httpNotOk
  /-- `fetch` rejected. -/
  | transportError
deriving DecidableEq, Repr

/-- Result of a document-upload handler run: successor state, network
calls, and the record passed to the `prefillData` callback, if any. -/
structure UploadOut where
  state : VState
  calls : List NetCall
  prefillEmitted : Option FormPrefill
deriving DecidableEq, Repr

/-- `extractLeadsData` (FaceDetection.tsx lines 77-120): sets
`extractingData`, clears `extractedLeads`, posts the document to
`/extract-kyc-data` with the stored bearer token, on success runs
`prefillFormWithKYCData`, and always resets `extractingData` in the
`finally`. -/
def extractLeadsData (ctx : Ctx) (s : VState) (resp : ExtractResponse) :
    UploadOut :=
  let s1 := {s with extractingData := true, extractedLeads := [],
                    statusMsg := .extractingKyc}
  let calls := [NetCall.extractKyc ctx.authToken]
  match resp with
  | .okSuccess k =>
      ⟨{s1 with statusMsg := .extractSuccess, extractingData := false},
        calls, some (prefillFormWithKYCData k)⟩
  | .okFailure => ⟨{s1 with extractingData := false}, calls, none⟩
  | .httpNotOk => ⟨{s1 with extractingData := false}, calls, none⟩
  | .transportError =>
      ⟨{s1 with statusMsg := .extractWarnFailed, extractingData := false},
        calls, none⟩

/-- `handleDocumentUpload` (FaceDetection.tsx lines 335-359): the
non-image and over-5MB guards run before anything else; only past them
is the file stored, the lead index reset, and `extractLeadsData`
invoked. -/
def handleDocumentUpload (ctx : Ctx) (s : VState) (f : JFile)
    (resp : ExtractResponse) : UploadOut :=
  if !(jsStartsWith f.ftype "image/") then
    ⟨{s with statusMsg := .uploadNotImage}, [], none⟩
  else if f.size > 5 * 1024 * 1024 then
    ⟨{s with statusMsg := .uploadTooLarge}, [], none⟩
  else
    extractLeadsData ctx
      {s with documentFile := some f, selectedLeadIndex := 0} resp

/-! ## KYCAgent document handler (`src/unnamed/part_006`, lines 138-224) -/

/-- Chat messages appended by `addMessage` in the agent flow, as an
enum of the message sites. -/
inductive AgentEvent where
  | errNotImage
  | errTooLarge
  | userUploaded (fname : String)
  | docProcessed
  | extractedShown
  | proceedToFace
  | errUnreadable
  | uploadPrompt
deriving DecidableEq, Repr

/-- The `currentStep` union of the `KYCAgent` component. -/
inductive AgentStep where
  | welcome
  | documentUpload
  | documentProcessing
  | faceVerification
  | verificationProcessing
  | complete
deriving DecidableEq, Repr

/-- The `useState` cells of `KYCAgent` touched by its document
handler. -/
structure AgentState where
  conversation : List AgentEvent
  currentStep : AgentStep
  extractedData : Option KycData
  formPrefillData : Option KycData
  isProcessing : Bool
  showFaceVerification : Bool
  uploadedDocument : Option JFile
deriving DecidableEq, Repr

/-- The agent state with the chat transcript removed (the
session-relevant part). -/
structure AgentCore where
  currentStep : AgentStep
  extractedData : Option KycData
  formPrefillData : Option KycData
  isProcessing : Bool
  showFaceVerification : Bool
  uploadedDocument : Option JFile
deriving DecidableEq, Repr

/-- Projection dropping the chat transcript. -/
def agentCore (st : AgentState) : AgentCore :=
  { currentStep := st.currentStep, extractedData := st.extractedData
    formPrefillData := st.formPrefillData, isProcessing := st.isProcessing
    showFaceVerification := st.showFaceVerification
    uploadedDocument := st.uploadedDocument }

/-- `handleDocumentUpload` of `KYCAgent` (part_006 lines 138-224): the
same non-image / over-5MB guards, each rejecting with only a chat
message; past them the file is stored, the step advances, the document
is posted with `use_api=true` and the bearer token, and the response
either fills `extractedData`/`formPrefillData` and moves to face
verification, or (any failure, including `success: false`) lands in
the `catch` which re-prompts for a document. -/
def agentHandleDocumentUpload (ctx : Ctx) (st : AgentState) (f : JFile)
    (resp : ExtractResponse) : AgentState × List NetCall :=
  if !(jsStartsWith f.ftype "image/") then
    ({st with conversation := st.conversation ++ [AgentEvent.errNotImage]}, [])
  else if f.size > 5 * 1024 * 1024 then
    ({st with conversation := st.conversation ++ [AgentEvent.errTooLarge]}, [])
  else
    let st1 := {st with conversation := st.conversation ++ [AgentEvent.userUploaded f.fname],
                        uploadedDocument := some f,
                        currentStep := .documentProcessing,
                        isProcessing := true}
    let calls := [NetCall.extractKyc ctx.authToken]
    match resp with
    | .okSuccess k =>
        ({st1 with extractedData := some k, formPrefillData := some k,
                   conversation := st1.conversation ++
                     [AgentEvent.docProcessed, AgentEvent.extractedShown, AgentEvent.proceedToFace],
                   showFaceVerification := true,
                   currentStep := .faceVerification,
                   isProcessing := false}, calls)
    | _ =>
        ({st1 with conversation := st1.conversation ++
                     [AgentEvent.errUnreadable, AgentEvent.uploadPrompt],
                   currentStep := .documentUpload,
                   isProcessing := false}, calls)

/-! ## KYCForm prefill merge (`src/unnamed/part_008`, lines 319-340) -/

/-- The `prefillData` prop of `KYCForm` (part_008 lines 273-281). -/
structure KYCFormPrefill where
  name : Option (List String)
  gender : Option String
  dateOfBirth : Option String
  mobileNumber : Option String
  aadhaarNumber : Option String
  address : Option String
deriving DecidableEq, Repr

/-- The form fields the prefill `useEffect` touches. -/
structure PersonalInfo where
  firstName : String
  lastName : String
  dateOfBirth : String
  phoneNumber : String
  street : String
deriving DecidableEq, Repr

/-- Accumulated `KYCForm` record (the parts reachable from the prefill
merge). -/
structure FormDataState where
  personalInfo : PersonalInfo
  documentNumber : String
deriving DecidableEq, Repr

/-- The prefill `useEffect` of `KYCForm` (part_008 lines 319-340): each
field is `prefillData.x || prev.x`, i.e. a truthy newly extracted value
replaces the stored one and the stored value survives only when the new
value is absent or empty.  `name?.[0]` / `name?.[1]` index the optional
name-part list. -/
def mergePrefill (prev : FormDataState) (pf : KYCFormPrefill) : FormDataState :=
  { personalInfo :=
      { firstName := jsOrStr (pf.name.bind (fun l => l[0]?)) prev.personalInfo.firstName
        lastName := jsOrStr (pf.name.bind (fun l => l[1]?)) prev.personalInfo.lastName
        dateOfBirth := jsOrStr pf.dateOfBirth prev.personalInfo.dateOfBirth
        phoneNumber := jsOrStr pf.mobileNumber prev.personalInfo.phoneNumber
        street := jsOrStr pf.address prev.personalInfo.street }
    documentNumber := jsOrStr pf.aadhaarNumber prev.documentNumber }

/-- A component state with the camera running, a face in view, and the
liveness probe still unresolved: the configuration in which the
liveness timer actually samples. -/
def livenessProbeStart : VState :=
  {initialVState with cameraActive := true, faceDetected := true}

/-- The C4 scenario response sequence: four `collecting` responses then
a `live` verdict. -/
def collectThenLive : List LivenessResponse :=
  [.collecting 1, .collecting 2, .collecting 3, .collecting 4, .live]

/-! ## Supporting lemmas -/

theorem male_infix_of_female_infix {l : List Char}
    (h : List.IsInfix "female".data l) : List.IsInfix "male".data l :=
  List.IsInfix.trans (by decide) h

theorem livenessTick_of_done (ctx : Ctx) (s : VState) (r : LivenessResponse)
    (h : s.livenessDone = true) : livenessTick ctx s r = (s, []) := by
  simp [livenessTick, h]

theorem runLiveness_of_done (ctx : Ctx) (s : VState)
    (rs : List LivenessResponse) (h : s.livenessDone = true) :
    runLiveness ctx s rs = (s, 0) := by
  induction rs with
  | nil => rfl
  | cons r rest ih => simp [runLiveness, livenessTick_of_done ctx s r h, ih]

theorem runLiveness_of_inactive (ctx : Ctx) (s : VState)
    (rs : List LivenessResponse) (h : s.cameraActive = false) :
    runLiveness ctx s rs = (s, 0) := by
  induction rs with
  | nil => rfl
  | cons r rest ih =>
      simp [runLiveness, livenessTick, h, ih]

theorem runLiveness_replicate_error (n : Nat) (ctx : Ctx) (s : VState)
    (hv : ctx.videoAvailable = true) (hf : s.faceDetected = true)
    (hd : s.livenessDone = false) (hc : s.cameraActive = true) :
    runLiveness ctx s (List.replicate n .transportError) = (s, n) := by
  induction n with
  | zero => rfl
  | succ m ih =>
      simp [List.replicate_succ, runLiveness, livenessTick, sendLivenessFrame,
            hv, hf, hd, hc, ih]
      omega

theorem sendLivenessFrame_calls (ctx : Ctx) (s : VState)
    (resp : LivenessResponse) :
    (sendLivenessFrame ctx s resp).2 = [] ∨
    (sendLivenessFrame ctx s resp).2 = [NetCall.livenessFrame "user123"] := by
  unfold sendLivenessFrame
  split
  · exact Or.inl rfl
  · cases resp <;> simp

/-! ## Claims -/

/-- C1: a face-match request is never issued unless the most recent
liveness outcome is confirmed: whenever `handleVerify` runs with
`liveDetected = false`, it makes no match network call, invokes no
verification callback, and leaves every component state cell other
than the display message unchanged, so a Matching step never precedes
a confirmed liveness result. -/
theorem handleVerify_requires_liveness (ctx : Ctx) (s : VState)
    (resp : MatchResult) (h : s.liveDetected = false) :
    (handleVerify ctx s resp).calls = [] ∧
    (handleVerify ctx s resp).onVerified = none ∧
    vcore (handleVerify ctx s resp).state = vcore s := by
  unfold handleVerify
  cases hd : s.documentFile.isNone <;> simp [hd, h, vcore]

/-- Witness for C1 at a concrete input: initial state (no liveness
confirmed yet), camera pipeline available, a response in flight. -/
theorem handleVerify_requires_liveness_witness :
    (handleVerify ⟨true, some "tok", "alice", 1⟩ initialVState .transportError).calls = [] ∧
    (handleVerify ⟨true, some "tok", "alice", 1⟩ initialVState .transportError).onVerified = none ∧
    vcore (handleVerify ⟨true, some "tok", "alice", 1⟩ initialVState .transportError).state
      = vcore initialVState :=
  handleVerify_requires_liveness ⟨true, some "tok", "alice", 1⟩ initialVState
    .transportError rfl

/-- C2 counterexample: the `KYCForm` prefill merge gives priority to
the newly extracted value, so a non-empty stored `dateOfBirth`
("1990-01-01") is overwritten by a later non-empty extraction
("2000-02-02") even though no replace flag exists in the interface. -/
theorem mergePrefill_overwrites_dob :
    (mergePrefill ⟨⟨"", "", "1990-01-01", "", ""⟩, ""⟩
        ⟨none, none, some "2000-02-02", none, none, none⟩).personalInfo.dateOfBirth
      = "2000-02-02" ∧
    ("1990-01-01" : String) ≠ "" ∧
    ("2000-02-02" : String) ≠ "1990-01-01" := by
  refine ⟨by decide, by decide, by decide⟩

/-- C2 (amended): the merge of a document-extraction result into the
accumulated record gives the newly extracted `dateOfBirth` priority: a
non-empty new value always replaces the stored one, and the stored
value survives exactly when the new value is absent or empty; no
replace flag exists. -/
theorem mergePrefill_dob_latest_wins (prev : FormDataState)
    (pf : KYCFormPrefill) :
    (pf.dateOfBirth = none ∨ pf.dateOfBirth = some "" →
      (mergePrefill prev pf).personalInfo.dateOfBirth
        = prev.personalInfo.dateOfBirth) ∧
    (∀ d, pf.dateOfBirth = some d → d ≠ "" →
      (mergePrefill prev pf).personalInfo.dateOfBirth = d) := by
  constructor
  · rintro (h | h) <;> simp [mergePrefill, jsOrStr, h]
  · intro d hd hne
    simp [mergePrefill, jsOrStr, hd, hne]

/-- Witness for C2 (amended) at concrete inputs: an absent extraction
keeps the stored date, a non-empty extraction replaces it. -/
theorem mergePrefill_dob_latest_wins_witness :
    (mergePrefill ⟨⟨"", "", "1990-01-01", "", ""⟩, ""⟩
        ⟨none, none, none, none, none, none⟩).personalInfo.dateOfBirth
      = "1990-01-01" ∧
    (mergePrefill ⟨⟨"", "", "1990-01-01", "", ""⟩, ""⟩
        ⟨none, none, some "2001-05-05", none, none, none⟩).personalInfo.dateOfBirth
      = "2001-05-05" :=
  ⟨(mergePrefill_dob_latest_wins _ _).1 (Or.inl rfl),
   (mergePrefill_dob_latest_wins _ _).2 "2001-05-05" rfl (by decide)⟩

/-- C3: the gender normalization is broken for female subjects: the
code checks `includes('male')` first, and since `"male"` is a substring
of `"female"`, the input `"Female"` normalizes to `"Male"`; moreover no
input whatsoever can normalize to `"Female"` (the `'Female'` branch of
the conditional is unreachable), contradicting the stated mapping into
the closed set with female mapping to Female. -/
theorem normalizeGender_female_unreachable :
    normalizeGender (some "Female") = some "Male" ∧
    ∀ g, normalizeGender (some g) ≠ some "Female" := by
  constructor
  · decide
  · intro g h
    simp only [normalizeGender] at h
    by_cases hg : g = ""
    · simp [hg] at h
    · rw [if_neg hg] at h
      by_cases hm : jsIncludes (jsToLower g) "male" = true
      · rw [if_pos hm] at h
        exact absurd (Option.some.inj h) (by decide)
      · rw [if_neg (by simpa using hm)] at h
        by_cases hf : jsIncludes (jsToLower g) "female" = true
        · exact hm (by
            unfold jsIncludes at hf ⊢
            rw [decide_eq_true_iff] at hf ⊢
            exact male_infix_of_female_infix hf)
        · rw [if_neg (by simpa using hf)] at h
          have hge : g = "Female" := Option.some.inj h
          exact hm (by rw [hge]; decide)

/-- C4: if the liveness probe receives `collecting` four times and then
`live: true`, the probe resolves confirmed on the fifth response
(`liveDetected` and `livenessDone` set), and however many further timer
ticks occur, no further submission is made: the total number of
liveness submissions is exactly 5. -/
theorem liveness_five_submissions (ctx : Ctx) (rest : List LivenessResponse)
    (h : ctx.videoAvailable = true) :
    (runLiveness ctx livenessProbeStart (collectThenLive ++ rest)).2 = 5 ∧
    (runLiveness ctx livenessProbeStart (collectThenLive ++ rest)).1.liveDetected = true ∧
    (runLiveness ctx livenessProbeStart (collectThenLive ++ rest)).1.livenessDone = true := by
  simp [collectThenLive, runLiveness, livenessTick, sendLivenessFrame, h,
        livenessProbeStart, initialVState, runLiveness_of_done]

/-- Witness for C4 at a concrete input: available camera pipeline and
two extra ticks after the verdict. -/
theorem liveness_five_submissions_witness :
    (runLiveness ⟨true, none, "alice", 1⟩ livenessProbeStart
        (collectThenLive ++ [.live, .collecting 9])).2 = 5 ∧
    (runLiveness ⟨true, none, "alice", 1⟩ livenessProbeStart
        (collectThenLive ++ [.live, .collecting 9])).1.liveDetected = true ∧
    (runLiveness ⟨true, none, "alice", 1⟩ livenessProbeStart
        (collectThenLive ++ [.live, .collecting 9])).1.livenessDone = true :=
  liveness_five_submissions ⟨true, none, "alice", 1⟩ [.live, .collecting 9] rfl

/-- C5 counterexample: after 100 consecutive transport errors the probe
has resolved nothing — the state is bit-for-bit the starting state
(`livenessDone = false`, `liveDetected = false`, no `ServiceError`
resolution exists anywhere in the component) and all 100 ticks still
submitted a frame, so no maximum consecutive-error count is ever
enforced. -/
theorem liveness_errors_never_resolve :
    (runLiveness ⟨true, none, "alice", 1⟩ livenessProbeStart
        (List.replicate 100 .transportError)).1 = livenessProbeStart ∧
    (runLiveness ⟨true, none, "alice", 1⟩ livenessProbeStart
        (List.replicate 100 .transportError)).2 = 100 := by
  have h := runLiveness_replicate_error 100 ⟨true, none, "alice", 1⟩
      livenessProbeStart rfl rfl rfl rfl
  exact ⟨by rw [h], by rw [h]⟩

/-- C5 (amended): every transport or service error during liveness
probing is swallowed silently and the probe simply continues: an
arbitrarily long run of consecutive errors leaves the component state
completely unchanged while a frame is still submitted on every tick —
there is no consecutive-error cap and no `ServiceError` resolution, so
errors are retried indefinitely while the camera is active. -/
theorem liveness_errors_silently_retried (n : Nat) (ctx : Ctx) (s : VState)
    (hv : ctx.videoAvailable = true) (hf : s.faceDetected = true)
    (hd : s.livenessDone = false) (hc : s.cameraActive = true) :
    (runLiveness ctx s (List.replicate n .transportError)).1 = s ∧
    (runLiveness ctx s (List.replicate n .transportError)).2 = n := by
  have h := runLiveness_replicate_error n ctx s hv hf hd hc
  exact ⟨by rw [h], by rw [h]⟩

/-- Witness for C5 (amended) at a concrete input: 3 consecutive errors,
3 submissions, state unchanged. -/
theorem liveness_errors_silently_retried_witness :
    (runLiveness ⟨true, some "tok", "bob", 2⟩ livenessProbeStart
        (List.replicate 3 .transportError)).1 = livenessProbeStart ∧
    (runLiveness ⟨true, some "tok", "bob", 2⟩ livenessProbeStart
        (List.replicate 3 .transportError)).2 = 3 :=
  liveness_errors_silently_retried 3 ⟨true, some "tok", "bob", 2⟩
    livenessProbeStart rfl rfl rfl rfl

/-- C6: a file that is not an image type or exceeds the 5 MB ceiling is
rejected synchronously by both document handlers before any network
call: no extraction request is emitted, no prefill is produced, and the
session state (everything but the displayed message / appended chat
error) is untouched. -/
theorem upload_validation_precedes_network (ctx : Ctx) (s : VState)
    (st : AgentState) (f : JFile) (resp : ExtractResponse)
    (h : jsStartsWith f.ftype "image/" = false ∨ 5 * 1024 * 1024 < f.size) :
    (handleDocumentUpload ctx s f resp).calls = [] ∧
    (handleDocumentUpload ctx s f resp).prefillEmitted = none ∧
    vcore (handleDocumentUpload ctx s f resp).state = vcore s ∧
    (agentHandleDocumentUpload ctx st f resp).2 = [] ∧
    agentCore (agentHandleDocumentUpload ctx st f resp).1 = agentCore st := by
  by_cases ht : jsStartsWith f.ftype "image/"
  · have hs : 5 * 1024 * 1024 < f.size := by
      rcases h with h | h
      · rw [ht] at h; cases h
      · exact h
    simp [handleDocumentUpload, agentHandleDocumentUpload, ht, hs,
          vcore, agentCore]
  · simp [handleDocumentUpload, agentHandleDocumentUpload, ht, vcore, agentCore]

/-- Witness for C6 at a concrete input: a 1 kB PDF is rejected by both
handlers with no network call and no state change. -/
theorem upload_validation_precedes_network_witness :
    (handleDocumentUpload ⟨true, none, "alice", 1⟩ initialVState
        ⟨"application/pdf", 1000, "doc.pdf"⟩ .okFailure).calls = [] ∧
    (handleDocumentUpload ⟨true, none, "alice", 1⟩ initialVState
        ⟨"application/pdf", 1000, "doc.pdf"⟩ .okFailure).prefillEmitted = none ∧
    vcore (handleDocumentUpload ⟨true, none, "alice", 1⟩ initialVState
        ⟨"application/pdf", 1000, "doc.pdf"⟩ .okFailure).state = vcore initialVState ∧
    (agentHandleDocumentUpload ⟨true, none, "alice", 1⟩
        ⟨[], .welcome, none, none, false, false, none⟩
        ⟨"application/pdf", 1000, "doc.pdf"⟩ .okFailure).2 = [] ∧
    agentCore (agentHandleDocumentUpload ⟨true, none, "alice", 1⟩
        ⟨[], .welcome, none, none, false, false, none⟩
        ⟨"application/pdf", 1000, "doc.pdf"⟩ .okFailure).1
      = agentCore ⟨[], .welcome, none, none, false, false, none⟩ :=
  upload_validation_precedes_network ⟨true, none, "alice", 1⟩ initialVState
    ⟨[], .welcome, none, none, false, false, none⟩
    ⟨"application/pdf", 1000, "doc.pdf"⟩ .okFailure (Or.inl (by decide))

/-- C7 counterexample: calling `handleStartCamera` while a stream is
already attached does not fail fast: no error is raised (`alerted =
none`), the old stream is silently stopped and a fresh one acquired,
and the run succeeds with the camera active on the new handle. -/
theorem start_camera_while_active_reacquires :
    (handleStartCamera ⟨some 0, [0]⟩ initialVState (.ok 1)).alerted = none ∧
    (handleStartCamera ⟨some 0, [0]⟩ initialVState (.ok 1)).cam.srcObject = some 1 ∧
    (handleStartCamera ⟨some 0, [0]⟩ initialVState (.ok 1)).state.cameraActive = true ∧
    (handleStartCamera ⟨some 0, [0]⟩ initialVState (.ok 1)).trace
      = [.stoppedTracks 0, .acquired 1] := by
  refine ⟨rfl, rfl, rfl, rfl⟩

/-- C7 (amended): `start()` while a capture session is already active
does not fail fast; it silently stops and releases the existing stream
before acquiring a new one.  The exclusivity half of the claim does
hold: assuming the single-handle invariant on entry (the live handles
are exactly the attached stream), it holds again on exit, and after
every prefix of the run's camera actions at most one live capture
handle exists. -/
theorem start_camera_exclusive_handle (cam : CamState) (s : VState)
    (acq : Except CamErr Nat)
    (hinv : cam.liveHandles = cam.srcObject.toList) :
    (handleStartCamera cam s acq).cam.liveHandles
      = (handleStartCamera cam s acq).cam.srcObject.toList ∧
    (∀ n, (liveAfter cam.liveHandles
      ((handleStartCamera cam s acq).trace.take n)).length ≤ 1) := by
  cases hso : cam.srcObject with
  | none =>
      have hl : cam.liveHandles = [] := by simp [hinv, hso]
      cases acq with
      | error e =>
          refine ⟨by simp [handleStartCamera, hso, hl], ?_⟩
          intro n
          rcases n with _ | _ | n <;>
            simp [handleStartCamera, hso, liveAfter, applyCamAct, hl]
      | ok h =>
          refine ⟨by simp [handleStartCamera, hso, hl], ?_⟩
          intro n
          rcases n with _ | _ | n <;>
            simp [handleStartCamera, hso, liveAfter, applyCamAct, hl]
  | some h0 =>
      have hl : cam.liveHandles = [h0] := by simp [hinv, hso]
      cases acq with
      | error e =>
          refine ⟨by simp [handleStartCamera, hso, hl], ?_⟩
          intro n
          rcases n with _ | _ | n <;>
            simp [handleStartCamera, hso, liveAfter, applyCamAct, hl]
      | ok h =>
          refine ⟨by simp [handleStartCamera, hso, hl], ?_⟩
          intro n
          rcases n with _ | _ | n <;>
            simp [handleStartCamera, hso, liveAfter, applyCamAct, hl]

/-- Witness for C7 (amended) at a concrete input: restarting over an
attached stream keeps the single-handle invariant, and after the
stop-tracks step at most one handle is live. -/
theorem start_camera_exclusive_handle_witness :
    (handleStartCamera ⟨some 0, [0]⟩ initialVState (.ok 1)).cam.liveHandles
      = (handleStartCamera ⟨some 0, [0]⟩ initialVState (.ok 1)).cam.srcObject.toList ∧
    (liveAfter [0]
      ((handleStartCamera ⟨some 0, [0]⟩ initialVState (.ok 1)).trace.take 1)).length ≤ 1 :=
  ⟨(start_camera_exclusive_handle ⟨some 0, [0]⟩ initialVState (.ok 1) rfl).1,
   (start_camera_exclusive_handle ⟨some 0, [0]⟩ initialVState (.ok 1) rfl).2 1⟩

/-- C8: when camera acquisition rejects with `PermissionDenied`, the
error is surfaced (`alert`) with that reason, the component state is
untouched — in particular `cameraActive` stays `false`, no stream is
attached, no retry is attempted (the trace contains no acquisition) —
and since the face-detection effect and the liveness timer are gated on
`cameraActive`, no presence-detection or liveness call is ever made for
that session. -/
theorem permission_denied_terminal (cam : CamState) (ctx : Ctx) (s : VState)
    (h : s.cameraActive = false) :
    (handleStartCamera cam s (.error .permissionDenied)).state = s ∧
    (handleStartCamera cam s (.error .permissionDenied)).alerted
      = some .permissionDenied ∧
    (handleStartCamera cam s (.error .permissionDenied)).cam.srcObject = none ∧
    (∀ hdl, CamAct.acquired hdl ∉
      (handleStartCamera cam s (.error .permissionDenied)).trace) ∧
    faceDetectionSetup (handleStartCamera cam s (.error .permissionDenied)).state
      = [] ∧
    (∀ resps, (runLiveness ctx
      (handleStartCamera cam s (.error .permissionDenied)).state resps).2 = 0) := by
  cases hso : cam.srcObject with
  | none =>
      refine ⟨rfl, ?_, ?_, ?_, ?_, ?_⟩
      · simp [handleStartCamera, hso]
      · simp [handleStartCamera, hso]
      · intro hdl; simp [handleStartCamera, hso]
      · simp [handleStartCamera, hso, faceDetectionSetup, h]
      · intro resps
        have := runLiveness_of_inactive ctx s resps h
        simp [handleStartCamera, hso, this]
  | some h0 =>
      refine ⟨rfl, ?_, ?_, ?_, ?_, ?_⟩
      · simp [handleStartCamera, hso]
      · simp [handleStartCamera, hso]
      · intro hdl; simp [handleStartCamera, hso]
      · simp [handleStartCamera, hso, faceDetectionSetup, h]
      · intro resps
        have := runLiveness_of_inactive ctx s resps h
        simp [handleStartCamera, hso, this]

/-- Witness for C8 at a concrete input: denied permission from the
idle state, with two would-be liveness ticks afterwards. -/
theorem permission_denied_terminal_witness :
    (handleStartCamera idleCam initialVState (.error .permissionDenied)).state
      = initialVState ∧
    (handleStartCamera idleCam initialVState (.error .permissionDenied)).alerted
      = some .permissionDenied ∧
    faceDetectionSetup
      (handleStartCamera idleCam initialVState (.error .permissionDenied)).state
      = [] ∧
    (runLiveness ⟨true, none, "alice", 1⟩
      (handleStartCamera idleCam initialVState (.error .permissionDenied)).state
      [.live, .collecting 1]).2 = 0 :=
  ⟨(permission_denied_terminal idleCam ⟨true, none, "alice", 1⟩
      initialVState rfl).1,
   (permission_denied_terminal idleCam ⟨true, none, "alice", 1⟩
      initialVState rfl).2.1,
   (permission_denied_terminal idleCam ⟨true, none, "alice", 1⟩
      initialVState rfl).2.2.2.2.1,
   (permission_denied_terminal idleCam ⟨true, none, "alice", 1⟩
      initialVState rfl).2.2.2.2.2 [.live, .collecting 1]⟩

/-- C9: presence is debounced — over any sequence of detection results
the number of transition events emitted by the `onResults` callback
equals the number of actual absent/present changes, and in particular a
present/absent/present run with repeated identical consecutive results
emits exactly one event per change (three events for
`[true, true, false, false, true, true]` from the absent start), not
one per frame. -/
theorem presence_debounced (fd : Bool) (l : List Bool) :
    (processFrames fd l).2.length = transitionCount fd l ∧
    processFrames false [true, true, false, false, true, true]
      = (true, [.appeared, .lost, .appeared]) := by
  constructor
  · induction l generalizing fd with
    | nil => rfl
    | cons b rest ih =>
        cases fd <;> cases b <;>
          simp [processFrames, onResultsPresence, transitionCount, ih] <;>
          omega
  · rfl

/-- C10: every liveness submission carries the probe identifier
`user_id = "user123"`, independent of the session and of the
authenticated user: any call emitted by `sendLivenessFrame` is exactly
`livenessFrame "user123"`, and any two calls emitted in any two
contexts (different users, tokens, or session ids) are identical — all
remote liveness evidence accumulates under one shared key. -/
theorem liveness_probe_identifier_constant (ctx : Ctx) (s : VState)
    (resp : LivenessResponse) :
    (∀ c, c ∈ (sendLivenessFrame ctx s resp).2 →
      c = NetCall.livenessFrame "user123") ∧
    (∀ (ctx' : Ctx) (s' : VState) (resp' : LivenessResponse) c c',
      c ∈ (sendLivenessFrame ctx s resp).2 →
      c' ∈ (sendLivenessFrame ctx' s' resp').2 → c = c') := by
  have key : ∀ (a : Ctx) (b : VState) (r : LivenessResponse) c,
      c ∈ (sendLivenessFrame a b r).2 → c = NetCall.livenessFrame "user123" := by
    intro a b r c hc
    rcases sendLivenessFrame_calls a b r with h | h <;> rw [h] at hc
    · cases hc
    · simpa using hc
  refine ⟨key ctx s resp, ?_⟩
  intro ctx' s' resp' c c' hc hc'
  rw [key ctx s resp c hc, key ctx' s' resp' c' hc']

/-- Witness for C10 at concrete inputs: the submissions of two
different sessions by two different authenticated users are equal. -/
theorem liveness_probe_identifier_constant_witness :
    ((sendLivenessFrame ⟨true, some "tokenA", "alice", 1⟩ livenessProbeStart
        .live).2.head?.getD (NetCall.extractKyc none))
      = ((sendLivenessFrame ⟨true, some "tokenB", "bob", 2⟩ livenessProbeStart
        (.collecting 3)).2.head?.getD (NetCall.extractKyc none)) :=
  (liveness_probe_identifier_constant ⟨true, some "tokenA", "alice", 1⟩
      livenessProbeStart .live).2
    ⟨true, some "tokenB", "bob", 2⟩ livenessProbeStart (.collecting 3)
    _ _ (by decide) (by decide)

end KYC
